import Mathlib

/-!
Verification of the DIGEST-MD5 SASL authenticator (`authenticator digest-MD5`
module of the jackal XMPP server).

Modelling conventions:
* Go strings and byte slices are byte sequences; we embed both as `List Nat`
  (each element a byte value).  Go's `==` on strings is byte equality, and all
  splitting/trimming in the source operates on single ASCII bytes, so this is
  faithful even for non-UTF-8 data (such as raw MD5 digests).
* External collaborators that are not part of this module (the `crypto/md5`
  hash, `encoding/base64`, the storage singleton's `FetchUser`, the stream's
  `Domain`, and the random nonce source) are parameters, collected in `Env`.
  `SendElement` is modelled by returning the list of sent elements.
* The three `errSASL...` error values are defined outside this module; the
  design document describes them as distinct error kinds, so they are modelled
  as distinct constructors of `Err`, together with arbitrary storage errors.
-/

namespace DigestMD5

/-- ASCII bytes of a string literal (all literals in the source are ASCII). -/
def ascii (s : String) : List Nat := s.data.map Char.toNat

/-- One hex digit of `encoding/hex` (lowercase alphabet `0123456789abcdef`),
as its ASCII code; totalised beyond 15 in an injective way. -/
def hexDigit (n : Nat) : Nat := if n < 10 then 48 + n else 87 + n

/-- `hex.EncodeToString`: each byte becomes two lowercase hex digits. -/
def hexEncode : List Nat → List Nat
  | [] => []
  | b :: bs => hexDigit (b / 16) :: hexDigit (b % 16) :: hexEncode bs

/-- Modelled from the spec: `util.SplitKeyAndValue` (from the `util` package,
not part of this file) splits a string at the first occurrence of the
separator byte; when the separator does not occur it yields no key and no
value (so the piece is silently ignored by the parser). -/
def splitKeyAndValue (sep : Nat) (s : List Nat) : List Nat × List Nat :=
  if s.contains sep then (s.takeWhile (· != sep), (s.dropWhile (· != sep)).tail)
  else ([], [])

/-- `strings.TrimPrefix(val, quote)`: drop one leading byte `q` if present. -/
def trimPrefixByte (q : Nat) : List Nat → List Nat
  | [] => []
  | b :: rest => if b = q then rest else b :: rest

/-- `strings.TrimSuffix(val, quote)`: drop one trailing byte `q` if present. -/
def trimSuffixByte (q : Nat) (l : List Nat) : List Nat :=
  match l.getLast? with
  | some b => if b = q then l.dropLast else l
  | none => l

/-- The negotiated parameter set (`digestMD5Parameters`). -/
structure Params where
  username : List Nat := []
  realm : List Nat := []
  nonce : List Nat := []
  cnonce : List Nat := []
  nc : List Nat := []
  qop : List Nat := []
  servType : List Nat := []
  digestURI : List Nat := []
  response : List Nat := []
  charset : List Nat := []
  authID : List Nat := []
  deriving DecidableEq, Repr

/-- `digestMD5Parameters.setParameter`: split the piece on the first `=`,
strip one pair of double quotes from the value, and assign it to the matching
field; unrecognized keys leave the record unchanged. -/
def setParameter (r : Params) (p : List Nat) : Params :=
  let kv := splitKeyAndValue 61 p
  let key := kv.1
  let val := trimSuffixByte 34 (trimPrefixByte 34 kv.2)
  if key = ascii "username" then { r with username := val }
  else if key = ascii "realm" then { r with realm := val }
  else if key = ascii "nonce" then { r with nonce := val }
  else if key = ascii "cnonce" then { r with cnonce := val }
  else if key = ascii "nc" then { r with nc := val }
  else if key = ascii "qop" then { r with qop := val }
  else if key = ascii "serv-type" then { r with servType := val }
  else if key = ascii "digest-uri" then { r with digestURI := val }
  else if key = ascii "response" then { r with response := val }
  else if key = ascii "charset" then { r with charset := val }
  else if key = ascii "authzid" then { r with authID := val }
  else r

/-- `parseParameters`: split the payload on `,` and fold each piece through
`setParameter`, starting from the all-empty record. -/
def parseParameters (str : List Nat) : Params :=
  (str.splitOn 44).foldl setParameter {}

/-- A stored credential (`model.User`): username and plaintext password. -/
structure User where
  username : List Nat
  password : List Nat
  deriving DecidableEq, Repr

/-- `computeResponse`: the DIGEST-MD5 response digest, byte for byte as the
source assembles it (`h` is the `crypto/md5` hash, input and output bytes). -/
def computeResponse (h : List Nat → List Nat) (params : Params) (user : User)
    (asClient : Bool) : List Nat :=
  let x := params.username ++ [58] ++ params.realm ++ [58] ++ user.password
  let y := h x
  let a1 := y ++ [58] ++ params.nonce ++ [58] ++ params.cnonce ++
    (if 0 < params.authID.length then [58] ++ params.authID else [])
  let c := if asClient then ascii "AUTHENTICATE" else []
  let a2 := c ++ [58] ++ params.digestURI
  let ha1 := hexEncode (h a1)
  let ha2 := hexEncode (h a2)
  let kd := ha1 ++ [58] ++ params.nonce ++ [58] ++ params.nc ++ [58] ++
    params.cnonce ++ [58] ++ params.qop ++ [58] ++ ha2
  hexEncode (h kd)

/-- The authenticator states (`digestMD5State`). -/
inductive DState where
  | start
  | challenged
  | authenticated
  deriving DecidableEq, Repr

/-- Error outcomes.  `saslNotAuthorized`, `saslMalformedRequest` and
`saslIncorrectEncoding` model the three `errSASL...` values (defined outside
this module; the design document's error taxonomy lists them as distinct
kinds); `storageErr` models any other error value coming out of the storage
layer. -/
inductive Err where
  | saslNotAuthorized
  | saslMalformedRequest
  | saslIncorrectEncoding
  | storageErr (code : Nat)
  deriving DecidableEq, Repr

/-- An XML element as the authenticator sees it: its name and its text.
(Namespaces are never inspected by this module and are not modelled.) -/
structure XElem where
  name : List Nat
  text : List Nat
  deriving DecidableEq, Repr

/-- The mutable authenticator session (`digestMD5Authenticator`, minus the
stream handle, which lives in `Env`). -/
structure Auth where
  state : DState
  username : List Nat
  authenticated : Bool
  deriving DecidableEq, Repr

/-- The external collaborators of the authenticator:
`md5` is `crypto/md5`; `domain` is `strm.Domain()`; `fetchUser` is
`storage.Instance().FetchUser` (`Except.error` a storage error, `.ok none`
user not found, `.ok (some u)` found); `b64decode`/`b64encode` are
`encoding/base64` standard encoding; `randomBytes` the 32 random nonce bytes
drawn in `handleStart`. -/
structure Env where
  md5 : List Nat → List Nat
  domain : List Nat
  fetchUser : List Nat → Except Err (Option User)
  b64decode : List Nat → Except Unit (List Nat)
  b64encode : List Nat → List Nat
  randomBytes : List Nat

/-- `newDigestMD5`: a fresh session in the start state. -/
def newDigestMD5 : Auth := ⟨DState.start, [], false⟩

/-- `Reset`: back to the start state, clearing username and flag. -/
def reset (_ : Auth) : Auth := ⟨DState.start, [], false⟩

/-- The result of processing one element: the returned `error`, the session
after the call, and the elements sent with `SendElement` during the call. -/
abbrev StepResult := Except Err Unit × Auth × List XElem

/-- `handleStart`: emit the initial challenge and move to the challenged
state. -/
def handleStart (env : Env) (d : Auth) (_ : XElem) : StepResult :=
  let domain := env.domain
  let nonce := env.b64encode env.randomBytes
  let chnge := ascii "realm=\"" ++ domain ++ ascii "\",nonce=\"" ++ nonce ++
    ascii "\",qop=\"auth\",charset=utf-8,algorithm=md5-sess"
  let respElem : XElem := ⟨ascii "challenge", env.b64encode chnge⟩
  (Except.ok (), { d with state := DState.challenged }, [respElem])

/-- `handleChallenged`: decode and parse the client response, run the seven
validations in order, and on success send `rspauth` and advance. -/
def handleChallenged (env : Env) (d : Auth) (elem : XElem) : StepResult :=
  if elem.text.length = 0 then (Except.error Err.saslMalformedRequest, d, [])
  else
    match env.b64decode elem.text with
    | Except.error _ => (Except.error Err.saslIncorrectEncoding, d, [])
    | Except.ok b =>
      let params := parseParameters b
      -- validate realm
      if params.realm ≠ env.domain then (Except.error Err.saslNotAuthorized, d, [])
      -- validate nc
      else if params.nc ≠ ascii "00000001" then (Except.error Err.saslNotAuthorized, d, [])
      -- validate qop
      else if params.qop ≠ ascii "auth" then (Except.error Err.saslNotAuthorized, d, [])
      -- validate serv-type
      else if 0 < params.servType.length ∧ params.servType ≠ ascii "xmpp" then
        (Except.error Err.saslNotAuthorized, d, [])
      -- validate digest-uri
      else if ¬ (ascii "xmpp/").isPrefixOf params.digestURI ∨
          params.digestURI.drop 5 ≠ env.domain then
        (Except.error Err.saslNotAuthorized, d, [])
      else
        -- validate user
        match env.fetchUser params.username with
        | Except.error e => (Except.error e, d, [])
        | Except.ok none => (Except.error Err.saslNotAuthorized, d, [])
        | Except.ok (some user) =>
          -- validate response
          let clientResp := computeResponse env.md5 params user true
          if clientResp ≠ params.response then
            (Except.error Err.saslNotAuthorized, d, [])
          else
            -- authenticated... compute and send server response
            let serverResp := computeResponse env.md5 params user false
            let respAuth := ascii "rspauth=" ++ serverResp
            let respElem : XElem := ⟨ascii "challenge", env.b64encode respAuth⟩
            (Except.ok (),
              { d with username := user.username, state := DState.authenticated },
              [respElem])

/-- `handleAuthenticated`: set the flag and emit the success element. -/
def handleAuthenticated (_ : Env) (d : Auth) (_ : XElem) : StepResult :=
  (Except.ok (), { d with authenticated := true }, [⟨ascii "success", []⟩])

/-- `ProcessElement`: dispatch on the authenticated flag, the element name
and the current state; unexpected combinations return `errSASLNotAuthorized`
without touching the session. -/
def processElement (env : Env) (d : Auth) (elem : XElem) : StepResult :=
  if d.authenticated then (Except.ok (), d, [])
  else if elem.name = ascii "auth" then
    if d.state = DState.start then handleStart env d elem
    else (Except.error Err.saslNotAuthorized, d, [])
  else if elem.name = ascii "response" then
    match d.state with
    | DState.challenged => handleChallenged env d elem
    | DState.authenticated => handleAuthenticated env d elem
    | DState.start => (Except.error Err.saslNotAuthorized, d, [])
  else (Except.error Err.saslNotAuthorized, d, [])

/-- Sessions reachable from a fresh session by processing elements and by
explicit resets, against a fixed environment. -/
inductive Reachable (env : Env) : Auth → Prop where
  | init : Reachable env newDigestMD5
  | step (d : Auth) (elem : XElem) (hd : Reachable env d) :
      Reachable env (processElement env d elem).2.1
  | reset (d : Auth) (hd : Reachable env d) : Reachable env (reset d)

/-! ### Spec-side definitions, for refinement comparisons -/

/-- The digest computation as the design document words it:
`X = username ":" realm ":" password`, `Y = MD5(X)` raw,
`A1 = Y ":" nonce ":" cnonce` with `":" authID` appended iff `authID` is
non-empty, `A2 = ("AUTHENTICATE" if asClient else "") ":" digestURI`,
`HA1 = hex(MD5(A1))`, `HA2 = hex(MD5(A2))`,
`KD = HA1 ":" nonce ":" nc ":" cnonce ":" qop ":" HA2`, result
`hex(MD5(KD))`. -/
def specResponse (md5 : List Nat → List Nat)
    (username realm password nonce cnonce nc qop digestURI authID : List Nat)
    (asClient : Bool) : List Nat :=
  let X := username ++ [58] ++ realm ++ [58] ++ password
  let Y := md5 X
  let A1 := Y ++ [58] ++ nonce ++ [58] ++ cnonce ++
    (if authID ≠ [] then [58] ++ authID else [])
  let A2 := (if asClient then ascii "AUTHENTICATE" else []) ++ [58] ++ digestURI
  let HA1 := hexEncode (md5 A1)
  let HA2 := hexEncode (md5 A2)
  let KD := HA1 ++ [58] ++ nonce ++ [58] ++ nc ++ [58] ++ cnonce ++ [58] ++
    qop ++ [58] ++ HA2
  hexEncode (md5 KD)

/-- The challenged-state validation cascade in the order the design document
lists it (spec-side definition, compared against `handleChallenged`):
realm, nc, qop, optional serv-type, digest-uri prefix and remainder, user
lookup, and finally the client digest comparison. -/
def challengedCheck (env : Env) (p : Params) : Except Err Unit :=
  if p.realm ≠ env.domain then Except.error Err.saslNotAuthorized
  else if p.nc ≠ ascii "00000001" then Except.error Err.saslNotAuthorized
  else if p.qop ≠ ascii "auth" then Except.error Err.saslNotAuthorized
  else if p.servType ≠ [] ∧ p.servType ≠ ascii "xmpp" then
    Except.error Err.saslNotAuthorized
  else if ¬ ((ascii "xmpp/").isPrefixOf p.digestURI ∧
      p.digestURI.drop 5 = env.domain) then
    Except.error Err.saslNotAuthorized
  else
    match env.fetchUser p.username with
    | Except.error e => Except.error e
    | Except.ok none => Except.error Err.saslNotAuthorized
    | Except.ok (some u) =>
      if computeResponse env.md5 p u true = p.response then Except.ok ()
      else Except.error Err.saslNotAuthorized

/-- Failure of one of the five parameter checks that precede the credential
lookup (used to state that the lookup is not consulted in that case). -/
def earlyFail (env : Env) (p : Params) : Prop :=
  p.realm ≠ env.domain ∨ p.nc ≠ ascii "00000001" ∨ p.qop ≠ ascii "auth" ∨
  (p.servType ≠ [] ∧ p.servType ≠ ascii "xmpp") ∨
  ¬ ((ascii "xmpp/").isPrefixOf p.digestURI ∧ p.digestURI.drop 5 = env.domain)

/-! ### Views used to state the parser and safety claims -/

/-- The recognized parameter keys. -/
inductive PKey where
  | username | realm | nonce | cnonce | nc | qop
  | servType | digestURI | response | charset | authID
  deriving DecidableEq, Repr

/-- The wire name of each recognized key. -/
def keyName : PKey → List Nat
  | PKey.username => ascii "username"
  | PKey.realm => ascii "realm"
  | PKey.nonce => ascii "nonce"
  | PKey.cnonce => ascii "cnonce"
  | PKey.nc => ascii "nc"
  | PKey.qop => ascii "qop"
  | PKey.servType => ascii "serv-type"
  | PKey.digestURI => ascii "digest-uri"
  | PKey.response => ascii "response"
  | PKey.charset => ascii "charset"
  | PKey.authID => ascii "authzid"

/-- Projection of a `Params` field by key. -/
def getField : PKey → Params → List Nat
  | PKey.username, r => r.username
  | PKey.realm, r => r.realm
  | PKey.nonce, r => r.nonce
  | PKey.cnonce, r => r.cnonce
  | PKey.nc, r => r.nc
  | PKey.qop, r => r.qop
  | PKey.servType, r => r.servType
  | PKey.digestURI, r => r.digestURI
  | PKey.response, r => r.response
  | PKey.charset, r => r.charset
  | PKey.authID, r => r.authID

/-- The value a single comma-piece assigns to key `k`, if any: the piece is
split on the first `=`, and its value (with one pair of double quotes
stripped) counts iff its key is the wire name of `k`. -/
def pieceValue (k : PKey) (piece : List Nat) : Option (List Nat) :=
  let kv := splitKeyAndValue 61 piece
  if kv.1 = keyName k then some (trimSuffixByte 34 (trimPrefixByte 34 kv.2))
  else none

/-- Go string slicing `s[n:]`, which panics (here: `none`) when `n` exceeds
the string's length. -/
def sliceFrom (s : List Nat) (n : Nat) : Option (List Nat) :=
  if n ≤ s.length then some (s.drop n) else none

/-! ### Concrete environments and runs, used as witnesses -/

/-- A concrete credential. -/
def aliceUser : User := ⟨ascii "alice", ascii "secret"⟩

/-- A concrete environment: a constant hash, identity base64, a store that
always finds `alice`. -/
def env0 : Env where
  md5 := fun _ => []
  domain := ascii "d"
  fetchUser := fun _ => Except.ok (some aliceUser)
  b64decode := fun t => Except.ok t
  b64encode := fun t => t
  randomBytes := []

/-- A valid client response payload for `env0` (its digest under the
constant hash is `hexEncode []`, the empty string, so `response` is simply
left absent). -/
def payload0 : List Nat :=
  ascii "username=alice,realm=d,nonce=N,cnonce=C,nc=00000001,qop=auth,digest-uri=xmpp/d"

/-- Session after the initial `auth` element. -/
def s1 : Auth := (processElement env0 newDigestMD5 ⟨ascii "auth", ascii "x"⟩).2.1

/-- Session after the valid challenge response. -/
def s2 : Auth := (processElement env0 s1 ⟨ascii "response", payload0⟩).2.1

/-- Session after the final acknowledgment. -/
def s3 : Auth := (processElement env0 s2 ⟨ascii "response", ascii "x"⟩).2.1

/-- A response payload whose realm does not match `env0`'s domain. -/
def payloadBadRealm : List Nat := ascii "realm=zz,nc=00000001,qop=auth"

/-- `env0` with a storage layer that always fails. -/
def envErr : Env := { env0 with fetchUser := fun _ => Except.error (Err.storageErr 7) }

/-- `env0` with a base64 decoder that always fails. -/
def envBadB64 : Env := { env0 with b64decode := fun _ => Except.error () }

/-- The session's username was returned by a successful credential lookup. -/
def goodUsername (env : Env) (d : Auth) : Prop :=
  ∃ n u, env.fetchUser n = Except.ok (some u) ∧ d.username = u.username

/-! ### Theorems -/

/-- The hex-digit table of `encoding/hex` is injective. -/
theorem hexDigit_injective : Function.Injective hexDigit := by
  intro a b hab
  unfold hexDigit at hab
  split_ifs at hab <;> omega

/-- Hex encoding is injective. -/
theorem hexEncode_injective : Function.Injective hexEncode := by
  intro a b hab
  induction a generalizing b with
  | nil => cases b with
    | nil => rfl
    | cons c cs => simp [hexEncode] at hab
  | cons x xs ih =>
    cases b with
    | nil => simp [hexEncode] at hab
    | cons y ys =>
      simp only [hexEncode, List.cons.injEq] at hab
      obtain ⟨h1, h2, h3⟩ := hab
      have e1 := hexDigit_injective h1
      have e2 := hexDigit_injective h2
      have hxy : x = y := by omega
      rw [hxy, ih h3]

/-- Claim C1: for every parameter set and credential, `computeResponse`
returns `hex(MD5(KD))` assembled exactly as the design document words it —
`X = username ":" realm ":" password`, `Y = MD5(X)` fed to the `A1` hash as
raw bytes (never hex-encoded), `A1 = Y ":" nonce ":" cnonce` with
`":" authID` appended iff `authID` is non-empty,
`A2 = ("AUTHENTICATE" if asClient else "") ":" digestURI`,
`KD = HA1 ":" nonce ":" nc ":" cnonce ":" qop ":" HA2`. -/
theorem claim1_computeResponse_matches_spec (h : List Nat → List Nat)
    (params : Params) (user : User) (asClient : Bool) :
    computeResponse h params user asClient =
      specResponse h params.username params.realm user.password params.nonce
        params.cnonce params.nc params.qop params.digestURI params.authID
        asClient := by
  simp only [computeResponse, specResponse, List.length_pos]

/-- Claim C9: for a collision-free hash, the client digest (`asClient=true`)
and the server digest (`asClient=false`) of the same parameters and
credential differ whenever `digestURI` is non-empty, because `A2` begins with
`"AUTHENTICATE"` in the client case and is bare `":" digestURI` in the server
case. -/
theorem claim9_client_server_digests_differ (h : List Nat → List Nat)
    (hinj : Function.Injective h) (params : Params) (user : User)
    (huri : params.digestURI ≠ []) :
    computeResponse h params user true ≠ computeResponse h params user false := by
  intro heq
  simp only [computeResponse, if_true, if_false] at heq
  have hkd := hinj (hexEncode_injective heq)
  have hha2 := List.append_cancel_left hkd
  have ha2 := hinj (hexEncode_injective hha2)
  have hlen := congrArg List.length ha2
  simp [ascii] at hlen
  omega

/-- Witness for C9 at a concrete injective hash and parameter set. -/
theorem claim9_witness :
    computeResponse (fun l => l) { digestURI := [120] } aliceUser true ≠
      computeResponse (fun l => l) { digestURI := [120] } aliceUser false :=
  claim9_client_server_digests_differ (fun l => l) (fun _ _ hab => hab)
    { digestURI := [120] } aliceUser (by decide)

/-- Claim C10: whenever the prefix test for `"xmpp/"` has succeeded — the
only situation in which the short-circuiting disjunction in the digest-uri
check evaluates the slice `digestURI[5:]` — the string has length at least 5,
so the slice is in bounds and equals the total `drop 5` used in
`handleChallenged`. -/
theorem claim10_digest_uri_slice_in_bounds (uri : List Nat)
    (hpre : (ascii "xmpp/").isPrefixOf uri = true) :
    5 ≤ uri.length ∧ sliceFrom uri 5 = some (uri.drop 5) := by
  have hp : ascii "xmpp/" <+: uri := List.isPrefixOf_iff_prefix.mp hpre
  have h5 : (ascii "xmpp/").length = 5 := by decide
  have hlen : 5 ≤ uri.length := h5 ▸ hp.length_le
  exact ⟨hlen, by simp [sliceFrom, hlen]⟩

/-- Witness for C10 at a concrete digest-uri. -/
theorem claim10_witness :
    5 ≤ (ascii "xmpp/d").length ∧
      sliceFrom (ascii "xmpp/d") 5 = some ((ascii "xmpp/d").drop 5) :=
  claim10_digest_uri_slice_in_bounds (ascii "xmpp/d") (by decide)

/-- Byte values of the recognized key names, for rewriting. -/
theorem ascii_username : ascii "username" = [117, 115, 101, 114, 110, 97, 109, 101] := by decide
theorem ascii_realm : ascii "realm" = [114, 101, 97, 108, 109] := by decide
theorem ascii_nonce : ascii "nonce" = [110, 111, 110, 99, 101] := by decide
theorem ascii_cnonce : ascii "cnonce" = [99, 110, 111, 110, 99, 101] := by decide
theorem ascii_nc : ascii "nc" = [110, 99] := by decide
theorem ascii_qop : ascii "qop" = [113, 111, 112] := by decide
theorem ascii_servtype : ascii "serv-type" = [115, 101, 114, 118, 45, 116, 121, 112, 101] := by decide
theorem ascii_digesturi : ascii "digest-uri" = [100, 105, 103, 101, 115, 116, 45, 117, 114, 105] := by decide
theorem ascii_response : ascii "response" = [114, 101, 115, 112, 111, 110, 115, 101] := by decide
theorem ascii_charset : ascii "charset" = [99, 104, 97, 114, 115, 101, 116] := by decide
theorem ascii_authzid : ascii "authzid" = [97, 117, 116, 104, 122, 105, 100] := by decide

/-- `setParameter` seen through the `username` field. -/
theorem getField_setParameter_username (r : Params) (p : List Nat) :
    getField PKey.username (setParameter r p) =
      (pieceValue PKey.username p).getD (getField PKey.username r) := by
  by_cases hc : (splitKeyAndValue 61 p).1 = keyName PKey.username
  · simp [setParameter, pieceValue, keyName, getField, hc, ascii_username, ascii_realm, ascii_nonce, ascii_cnonce, ascii_nc, ascii_qop, ascii_servtype, ascii_digesturi, ascii_response, ascii_charset, ascii_authzid]
  · simp only [keyName, ascii_username] at hc
    simp [setParameter, pieceValue, keyName, getField, hc, ascii_username, ascii_realm, ascii_nonce, ascii_cnonce, ascii_nc, ascii_qop, ascii_servtype, ascii_digesturi, ascii_response, ascii_charset, ascii_authzid,
      apply_ite Params.username]

/-- `setParameter` seen through the `realm` field. -/
theorem getField_setParameter_realm (r : Params) (p : List Nat) :
    getField PKey.realm (setParameter r p) =
      (pieceValue PKey.realm p).getD (getField PKey.realm r) := by
  by_cases hc : (splitKeyAndValue 61 p).1 = keyName PKey.realm
  · simp [setParameter, pieceValue, keyName, getField, hc, ascii_username, ascii_realm, ascii_nonce, ascii_cnonce, ascii_nc, ascii_qop, ascii_servtype, ascii_digesturi, ascii_response, ascii_charset, ascii_authzid]
  · simp only [keyName, ascii_realm] at hc
    simp [setParameter, pieceValue, keyName, getField, hc, ascii_username, ascii_realm, ascii_nonce, ascii_cnonce, ascii_nc, ascii_qop, ascii_servtype, ascii_digesturi, ascii_response, ascii_charset, ascii_authzid,
      apply_ite Params.realm]

/-- `setParameter` seen through the `nonce` field. -/
theorem getField_setParameter_nonce (r : Params) (p : List Nat) :
    getField PKey.nonce (setParameter r p) =
      (pieceValue PKey.nonce p).getD (getField PKey.nonce r) := by
  by_cases hc : (splitKeyAndValue 61 p).1 = keyName PKey.nonce
  · simp [setParameter, pieceValue, keyName, getField, hc, ascii_username, ascii_realm, ascii_nonce, ascii_cnonce, ascii_nc, ascii_qop, ascii_servtype, ascii_digesturi, ascii_response, ascii_charset, ascii_authzid]
  · simp only [keyName, ascii_nonce] at hc
    simp [setParameter, pieceValue, keyName, getField, hc, ascii_username, ascii_realm, ascii_nonce, ascii_cnonce, ascii_nc, ascii_qop, ascii_servtype, ascii_digesturi, ascii_response, ascii_charset, ascii_authzid,
      apply_ite Params.nonce]

/-- `setParameter` seen through the `cnonce` field. -/
theorem getField_setParameter_cnonce (r : Params) (p : List Nat) :
    getField PKey.cnonce (setParameter r p) =
      (pieceValue PKey.cnonce p).getD (getField PKey.cnonce r) := by
  by_cases hc : (splitKeyAndValue 61 p).1 = keyName PKey.cnonce
  · simp [setParameter, pieceValue, keyName, getField, hc, ascii_username, ascii_realm, ascii_nonce, ascii_cnonce, ascii_nc, ascii_qop, ascii_servtype, ascii_digesturi, ascii_response, ascii_charset, ascii_authzid]
  · simp only [keyName, ascii_cnonce] at hc
    simp [setParameter, pieceValue, keyName, getField, hc, ascii_username, ascii_realm, ascii_nonce, ascii_cnonce, ascii_nc, ascii_qop, ascii_servtype, ascii_digesturi, ascii_response, ascii_charset, ascii_authzid,
      apply_ite Params.cnonce]

/-- `setParameter` seen through the `nc` field. -/
theorem getField_setParameter_nc (r : Params) (p : List Nat) :
    getField PKey.nc (setParameter r p) =
      (pieceValue PKey.nc p).getD (getField PKey.nc r) := by
  by_cases hc : (splitKeyAndValue 61 p).1 = keyName PKey.nc
  · simp [setParameter, pieceValue, keyName, getField, hc, ascii_username, ascii_realm, ascii_nonce, ascii_cnonce, ascii_nc, ascii_qop, ascii_servtype, ascii_digesturi, ascii_response, ascii_charset, ascii_authzid]
  · simp only [keyName, ascii_nc] at hc
    simp [setParameter, pieceValue, keyName, getField, hc, ascii_username, ascii_realm, ascii_nonce, ascii_cnonce, ascii_nc, ascii_qop, ascii_servtype, ascii_digesturi, ascii_response, ascii_charset, ascii_authzid,
      apply_ite Params.nc]

/-- `setParameter` seen through the `qop` field. -/
theorem getField_setParameter_qop (r : Params) (p : List Nat) :
    getField PKey.qop (setParameter r p) =
      (pieceValue PKey.qop p).getD (getField PKey.qop r) := by
  by_cases hc : (splitKeyAndValue 61 p).1 = keyName PKey.qop
  · simp [setParameter, pieceValue, keyName, getField, hc, ascii_username, ascii_realm, ascii_nonce, ascii_cnonce, ascii_nc, ascii_qop, ascii_servtype, ascii_digesturi, ascii_response, ascii_charset, ascii_authzid]
  · simp only [keyName, ascii_qop] at hc
    simp [setParameter, pieceValue, keyName, getField, hc, ascii_username, ascii_realm, ascii_nonce, ascii_cnonce, ascii_nc, ascii_qop, ascii_servtype, ascii_digesturi, ascii_response, ascii_charset, ascii_authzid,
      apply_ite Params.qop]

/-- `setParameter` seen through the `servType` field. -/
theorem getField_setParameter_servType (r : Params) (p : List Nat) :
    getField PKey.servType (setParameter r p) =
      (pieceValue PKey.servType p).getD (getField PKey.servType r) := by
  by_cases hc : (splitKeyAndValue 61 p).1 = keyName PKey.servType
  · simp [setParameter, pieceValue, keyName, getField, hc, ascii_username, ascii_realm, ascii_nonce, ascii_cnonce, ascii_nc, ascii_qop, ascii_servtype, ascii_digesturi, ascii_response, ascii_charset, ascii_authzid]
  · simp only [keyName, ascii_servtype] at hc
    simp [setParameter, pieceValue, keyName, getField, hc, ascii_username, ascii_realm, ascii_nonce, ascii_cnonce, ascii_nc, ascii_qop, ascii_servtype, ascii_digesturi, ascii_response, ascii_charset, ascii_authzid,
      apply_ite Params.servType]

/-- `setParameter` seen through the `digestURI` field. -/
theorem getField_setParameter_digestURI (r : Params) (p : List Nat) :
    getField PKey.digestURI (setParameter r p) =
      (pieceValue PKey.digestURI p).getD (getField PKey.digestURI r) := by
  by_cases hc : (splitKeyAndValue 61 p).1 = keyName PKey.digestURI
  · simp [setParameter, pieceValue, keyName, getField, hc, ascii_username, ascii_realm, ascii_nonce, ascii_cnonce, ascii_nc, ascii_qop, ascii_servtype, ascii_digesturi, ascii_response, ascii_charset, ascii_authzid]
  · simp only [keyName, ascii_digesturi] at hc
    simp [setParameter, pieceValue, keyName, getField, hc, ascii_username, ascii_realm, ascii_nonce, ascii_cnonce, ascii_nc, ascii_qop, ascii_servtype, ascii_digesturi, ascii_response, ascii_charset, ascii_authzid,
      apply_ite Params.digestURI]

/-- `setParameter` seen through the `response` field. -/
theorem getField_setParameter_response (r : Params) (p : List Nat) :
    getField PKey.response (setParameter r p) =
      (pieceValue PKey.response p).getD (getField PKey.response r) := by
  by_cases hc : (splitKeyAndValue 61 p).1 = keyName PKey.response
  · simp [setParameter, pieceValue, keyName, getField, hc, ascii_username, ascii_realm, ascii_nonce, ascii_cnonce, ascii_nc, ascii_qop, ascii_servtype, ascii_digesturi, ascii_response, ascii_charset, ascii_authzid]
  · simp only [keyName, ascii_response] at hc
    simp [setParameter, pieceValue, keyName, getField, hc, ascii_username, ascii_realm, ascii_nonce, ascii_cnonce, ascii_nc, ascii_qop, ascii_servtype, ascii_digesturi, ascii_response, ascii_charset, ascii_authzid,
      apply_ite Params.response]

/-- `setParameter` seen through the `charset` field. -/
theorem getField_setParameter_charset (r : Params) (p : List Nat) :
    getField PKey.charset (setParameter r p) =
      (pieceValue PKey.charset p).getD (getField PKey.charset r) := by
  by_cases hc : (splitKeyAndValue 61 p).1 = keyName PKey.charset
  · simp [setParameter, pieceValue, keyName, getField, hc, ascii_username, ascii_realm, ascii_nonce, ascii_cnonce, ascii_nc, ascii_qop, ascii_servtype, ascii_digesturi, ascii_response, ascii_charset, ascii_authzid]
  · simp only [keyName, ascii_charset] at hc
    simp [setParameter, pieceValue, keyName, getField, hc, ascii_username, ascii_realm, ascii_nonce, ascii_cnonce, ascii_nc, ascii_qop, ascii_servtype, ascii_digesturi, ascii_response, ascii_charset, ascii_authzid,
      apply_ite Params.charset]

/-- `setParameter` seen through the `authID` field. -/
theorem getField_setParameter_authID (r : Params) (p : List Nat) :
    getField PKey.authID (setParameter r p) =
      (pieceValue PKey.authID p).getD (getField PKey.authID r) := by
  by_cases hc : (splitKeyAndValue 61 p).1 = keyName PKey.authID
  · simp [setParameter, pieceValue, keyName, getField, hc, ascii_username, ascii_realm, ascii_nonce, ascii_cnonce, ascii_nc, ascii_qop, ascii_servtype, ascii_digesturi, ascii_response, ascii_charset, ascii_authzid]
  · simp only [keyName, ascii_authzid] at hc
    simp [setParameter, pieceValue, keyName, getField, hc, ascii_username, ascii_realm, ascii_nonce, ascii_cnonce, ascii_nc, ascii_qop, ascii_servtype, ascii_digesturi, ascii_response, ascii_charset, ascii_authzid,
      apply_ite Params.authID]

/-- One `setParameter` step assigns `pieceValue` when the key matches and
leaves the field alone otherwise. -/
theorem getField_setParameter (k : PKey) (r : Params) (p : List Nat) :
    getField k (setParameter r p) = (pieceValue k p).getD (getField k r) := by
  cases k
  case username => exact getField_setParameter_username r p
  case realm => exact getField_setParameter_realm r p
  case nonce => exact getField_setParameter_nonce r p
  case cnonce => exact getField_setParameter_cnonce r p
  case nc => exact getField_setParameter_nc r p
  case qop => exact getField_setParameter_qop r p
  case servType => exact getField_setParameter_servType r p
  case digestURI => exact getField_setParameter_digestURI r p
  case response => exact getField_setParameter_response r p
  case charset => exact getField_setParameter_charset r p
  case authID => exact getField_setParameter_authID r p

/-- Folding pieces through `setParameter` keeps, per key, the value of the
last piece that assigns it. -/
theorem getField_foldl (k : PKey) (pieces : List (List Nat)) (r : Params) :
    getField k (pieces.foldl setParameter r) =
      (pieces.filterMap (pieceValue k)).getLastD (getField k r) := by
  induction pieces generalizing r with
  | nil => rfl
  | cons pc rest ih =>
    simp only [List.foldl_cons, List.filterMap_cons]
    cases hpv : pieceValue k pc with
    | none =>
      rw [ih, getField_setParameter, hpv]
      rfl
    | some v =>
      rw [ih, getField_setParameter, hpv, List.getLastD_cons]
      rfl

/-- Claim C7: the parameter parser is total and, for every input string and
every recognized key, yields the value of the last comma-piece whose
`=`-split key names it (one surrounding pair of double quotes stripped);
unrecognized keys and malformed pieces contribute nothing, and a field whose
key never occurs stays the empty string. -/
theorem claim7_parser_last_write_wins (s : List Nat) (k : PKey) :
    getField k (parseParameters s) =
      ((s.splitOn 44).filterMap (pieceValue k)).getLastD [] := by
  have h0 : getField k ({} : Params) = [] := by cases k <;> rfl
  rw [parseParameters, getField_foldl, h0]

/-- Byte values of the `auth` element name, for rewriting. -/
theorem ascii_auth : ascii "auth" = [97, 117, 116, 104] := by decide

/-- Every run of `handleChallenged` either fails with some error and leaves
the session untouched (sending nothing), or decodes the payload, finds the
user, and succeeds, setting the username from the looked-up credential,
advancing to the authenticated state and sending the `rspauth` challenge. -/
theorem handleChallenged_shape (env : Env) (d : Auth) (e : XElem) :
    (∃ err, handleChallenged env d e = (Except.error err, d, [])) ∨
    (∃ b u, env.b64decode e.text = Except.ok b ∧
      env.fetchUser (parseParameters b).username = Except.ok (some u) ∧
      handleChallenged env d e =
        (Except.ok (), ⟨DState.authenticated, u.username, d.authenticated⟩,
          [⟨ascii "challenge", env.b64encode (ascii "rspauth=" ++
            computeResponse env.md5 (parseParameters b) u false)⟩])) := by
  simp only [handleChallenged]
  split
  · exact Or.inl ⟨_, rfl⟩
  next hne =>
    split
    next x heqd => exact Or.inl ⟨_, rfl⟩
    next b heqd =>
      split
      · exact Or.inl ⟨_, rfl⟩
      next h1 =>
        split
        · exact Or.inl ⟨_, rfl⟩
        next h2 =>
          split
          · exact Or.inl ⟨_, rfl⟩
          next h3 =>
            split
            · exact Or.inl ⟨_, rfl⟩
            next h4 =>
              split
              · exact Or.inl ⟨_, rfl⟩
              next h5 =>
                split
                next err hf => exact Or.inl ⟨_, rfl⟩
                next hf => exact Or.inl ⟨_, rfl⟩
                next u hf =>
                  split
                  · exact Or.inl ⟨_, rfl⟩
                  next hresp =>
                    exact Or.inr ⟨b, u, heqd, hf, rfl⟩

/-- The five possible outcomes of `ProcessElement`: authenticated no-op,
initial challenge, rejection, successful challenge response, and final
confirmation. -/
theorem processElement_cases (env : Env) (d : Auth) (e : XElem) :
    (processElement env d e = (Except.ok (), d, []) ∧ d.authenticated = true) ∨
    (∃ out, processElement env d e =
        (Except.ok (), { d with state := DState.challenged }, out) ∧
      d.authenticated = false ∧ d.state = DState.start) ∨
    (∃ err, processElement env d e = (Except.error err, d, [])) ∨
    (∃ b u out, env.fetchUser (parseParameters b).username = Except.ok (some u) ∧
      processElement env d e =
        (Except.ok (), ⟨DState.authenticated, u.username, d.authenticated⟩, out) ∧
      d.authenticated = false ∧ d.state = DState.challenged) ∨
    (processElement env d e =
        (Except.ok (), { d with authenticated := true }, [⟨ascii "success", []⟩]) ∧
      d.authenticated = false ∧ d.state = DState.authenticated) := by
  by_cases ha : d.authenticated = true
  · exact Or.inl ⟨by simp [processElement, ha], ha⟩
  · have ha' : d.authenticated = false := by
      cases hb : d.authenticated
      · rfl
      · exact absurd hb ha
    by_cases hn1 : e.name = ascii "auth"
    · by_cases hs : d.state = DState.start
      · have hpe : processElement env d e = handleStart env d e := by
          simp [processElement, ha', if_pos hn1, hs]
        exact Or.inr (Or.inl ⟨[⟨ascii "challenge",
          env.b64encode (ascii "realm=\"" ++ env.domain ++ ascii "\",nonce=\"" ++
            env.b64encode env.randomBytes ++
            ascii "\",qop=\"auth\",charset=utf-8,algorithm=md5-sess")⟩],
          by rw [hpe]; rfl, ha', hs⟩)
      · refine Or.inr (Or.inr (Or.inl ⟨Err.saslNotAuthorized, ?_⟩))
        simp [processElement, ha', if_pos hn1, if_neg hs]
    · by_cases hn2 : e.name = ascii "response"
      · cases hs : d.state with
        | start =>
          refine Or.inr (Or.inr (Or.inl ⟨Err.saslNotAuthorized, ?_⟩))
          simp [processElement, ha', if_neg hn1, if_pos hn2, hs]
        | challenged =>
          have hpe : processElement env d e = handleChallenged env d e := by
            simp [processElement, ha', if_neg hn1, if_pos hn2, hs]
          rcases handleChallenged_shape env d e with ⟨err, hh⟩ | ⟨b, u, hdec, hf, hh⟩
          · exact Or.inr (Or.inr (Or.inl ⟨err, by rw [hpe, hh]⟩))
          · exact Or.inr (Or.inr (Or.inr (Or.inl
              ⟨b, u, _, hf, by rw [hpe, hh], ha', rfl⟩)))
        | authenticated =>
          refine Or.inr (Or.inr (Or.inr (Or.inr ⟨?_, ha', rfl⟩)))
          simp [processElement, ha', if_neg hn1, if_pos hn2, hs, handleAuthenticated]
      · refine Or.inr (Or.inr (Or.inl ⟨Err.saslNotAuthorized, ?_⟩))
        simp [processElement, ha', if_neg hn1, if_neg hn2]

/-- On a non-empty payload that base64-decodes, the error outcome of
`handleChallenged` is exactly the ordered validation cascade. -/
theorem handleChallenged_fst (env : Env) (d : Auth) (e : XElem) (b : List Nat)
    (hne : ¬ e.text.length = 0) (hdec : env.b64decode e.text = Except.ok b) :
    (handleChallenged env d e).1 = challengedCheck env (parseParameters b) := by
  simp only [handleChallenged, challengedCheck, hdec, if_neg hne]
  by_cases h1 : (parseParameters b).realm = env.domain
  · by_cases h2 : (parseParameters b).nc = ascii "00000001"
    · by_cases h3 : (parseParameters b).qop = ascii "auth"
      · by_cases h4 : (parseParameters b).servType = []
        · by_cases hpre : (ascii "xmpp/").isPrefixOf (parseParameters b).digestURI = true
          · by_cases hdrop : (parseParameters b).digestURI.drop 5 = env.domain
            · cases hfu : env.fetchUser (parseParameters b).username with
              | error err => simp [h1, h2, h3, h4, hpre, hdrop, hfu]
              | ok ou =>
                cases ou with
                | none => simp [h1, h2, h3, h4, hpre, hdrop, hfu]
                | some u =>
                  by_cases hr : computeResponse env.md5 (parseParameters b) u true =
                      (parseParameters b).response
                  · simp [h1, h2, h3, h4, hpre, hdrop, hfu, hr]
                  · simp [h1, h2, h3, h4, hpre, hdrop, hfu, hr]
            · simp [h1, h2, h3, h4, hpre, hdrop]
          · simp [h1, h2, h3, h4, hpre]
        · by_cases h4x : (parseParameters b).servType = ascii "xmpp"
          · by_cases hpre : (ascii "xmpp/").isPrefixOf (parseParameters b).digestURI = true
            · by_cases hdrop : (parseParameters b).digestURI.drop 5 = env.domain
              · cases hfu : env.fetchUser (parseParameters b).username with
                | error err => simp [h1, h2, h3, h4, h4x, hpre, hdrop, hfu, List.length_pos]
                | ok ou =>
                  cases ou with
                  | none => simp [h1, h2, h3, h4, h4x, hpre, hdrop, hfu, List.length_pos]
                  | some u =>
                    by_cases hr : computeResponse env.md5 (parseParameters b) u true =
                        (parseParameters b).response
                    · simp [h1, h2, h3, h4, h4x, hpre, hdrop, hfu, hr, List.length_pos]
                    · simp [h1, h2, h3, h4, h4x, hpre, hdrop, hfu, hr, List.length_pos]
              · simp [h1, h2, h3, h4, h4x, hpre, hdrop, List.length_pos]
            · simp [h1, h2, h3, h4, h4x, hpre, List.length_pos]
          · simp [h1, h2, h3, h4, h4x, List.length_pos]
      · simp [h1, h2, h3]
    · simp [h1, h2]
  · simp [h1]

/-- If any of the five parameter checks fails, the cascade rejects with the
generic not-authorized error, without consulting the credential store. -/
theorem challengedCheck_earlyFail (env : Env) (p : Params) (h : earlyFail env p) :
    challengedCheck env p = Except.error Err.saslNotAuthorized := by
  unfold challengedCheck
  split_ifs <;> first
    | rfl
    | (exfalso; rcases h with h | h | h | h | h <;> tauto)

/-- A `response` element in the challenged state (flag down) is handled by
`handleChallenged`. -/
theorem processElement_challenged (env : Env) (d : Auth) (e : XElem)
    (ha : d.authenticated = false) (hs : d.state = DState.challenged)
    (hn : e.name = ascii "response") :
    processElement env d e = handleChallenged env d e := by
  simp [processElement, ha, hn, hs, ascii_auth, ascii_response]

/-- Claim C2: a response element processed in the challenged state whose
payload decodes from base64 is validated by the cascade in exactly the
claimed order — realm, nc = "00000001", qop = "auth", optional servType =
"xmpp", digestURI = "xmpp/" ++ domain, credential lookup, client digest —
and when one of the five parameter checks fails, the outcome is the generic
rejection no matter what the credential store would answer (the lookup is a
later check and is not consulted). -/
theorem claim2_validation_order (env : Env) (d : Auth) (e : XElem) (b : List Nat)
    (hauth : d.authenticated = false) (hst : d.state = DState.challenged)
    (hname : e.name = ascii "response") (hne : ¬ e.text.length = 0)
    (hdec : env.b64decode e.text = Except.ok b) :
    (processElement env d e).1 = challengedCheck env (parseParameters b) ∧
    (earlyFail env (parseParameters b) →
      ∀ f, (processElement { env with fetchUser := f } d e).1 =
        Except.error Err.saslNotAuthorized) := by
  constructor
  · rw [processElement_challenged env d e hauth hst hname]
    exact handleChallenged_fst env d e b hne hdec
  · intro hef f
    have hdec2 : ({ env with fetchUser := f } : Env).b64decode e.text =
        Except.ok b := hdec
    rw [processElement_challenged { env with fetchUser := f } d e hauth hst hname,
      handleChallenged_fst { env with fetchUser := f } d e b hne hdec2]
    exact challengedCheck_earlyFail _ _ hef

/-- Witness for C2 on a concrete valid run. -/
theorem claim2_witness :
    (processElement env0 s1 ⟨ascii "response", payload0⟩).1 =
      challengedCheck env0 (parseParameters payload0) ∧
    (earlyFail env0 (parseParameters payload0) →
      ∀ f, (processElement { env0 with fetchUser := f } s1
          ⟨ascii "response", payload0⟩).1 = Except.error Err.saslNotAuthorized) :=
  claim2_validation_order env0 s1 ⟨ascii "response", payload0⟩ payload0
    (by decide) (by decide) rfl (by decide) rfl

/-- Claim C3: whenever `ProcessElement` returns an error, the session —
state, username and authenticated flag — is exactly as it was before the
call. -/
theorem claim3_error_preserves_session (env : Env) (d : Auth) (e : XElem)
    (err : Err) (h : (processElement env d e).1 = Except.error err) :
    (processElement env d e).2.1 = d := by
  rcases processElement_cases env d e with ⟨hp, _⟩ | ⟨out, hp, _, _⟩ |
    ⟨e2, hp⟩ | ⟨b, u, out, _, hp, _, _⟩ | ⟨hp, _, _⟩ <;>
    rw [hp] at h ⊢ <;> first | rfl | simp at h

/-- Witness for C3: a response in the start state is rejected unchanged. -/
theorem claim3_witness :
    (processElement env0 newDigestMD5 ⟨ascii "response", payload0⟩).2.1 =
      newDigestMD5 :=
  claim3_error_preserves_session env0 newDigestMD5 ⟨ascii "response", payload0⟩
    Err.saslNotAuthorized rfl

/-- Claim C4: each of the seven authorization sub-failures of the challenged
state — realm mismatch, nc mismatch, unsupported qop, wrong servType,
digest-uri mismatch, user not found, and client-digest mismatch — produces
the one identical `errSASLNotAuthorized` value, so the caller cannot tell
from the returned error which check failed. -/
theorem claim4_uniform_not_authorized (env : Env) (d : Auth) (e : XElem)
    (b : List Nat) (hne : ¬ e.text.length = 0)
    (hdec : env.b64decode e.text = Except.ok b) :
    ((parseParameters b).realm ≠ env.domain →
      (handleChallenged env d e).1 = Except.error Err.saslNotAuthorized) ∧
    ((parseParameters b).nc ≠ ascii "00000001" →
      (handleChallenged env d e).1 = Except.error Err.saslNotAuthorized) ∧
    ((parseParameters b).qop ≠ ascii "auth" →
      (handleChallenged env d e).1 = Except.error Err.saslNotAuthorized) ∧
    ((parseParameters b).servType ≠ [] ∧ (parseParameters b).servType ≠ ascii "xmpp" →
      (handleChallenged env d e).1 = Except.error Err.saslNotAuthorized) ∧
    (¬ ((ascii "xmpp/").isPrefixOf (parseParameters b).digestURI ∧
        (parseParameters b).digestURI.drop 5 = env.domain) →
      (handleChallenged env d e).1 = Except.error Err.saslNotAuthorized) ∧
    (env.fetchUser (parseParameters b).username = Except.ok none →
      (handleChallenged env d e).1 = Except.error Err.saslNotAuthorized) ∧
    (∀ u, env.fetchUser (parseParameters b).username = Except.ok (some u) →
      computeResponse env.md5 (parseParameters b) u true ≠ (parseParameters b).response →
      (handleChallenged env d e).1 = Except.error Err.saslNotAuthorized) := by
  rw [handleChallenged_fst env d e b hne hdec]
  refine ⟨fun h => challengedCheck_earlyFail env _ (Or.inl h),
    fun h => challengedCheck_earlyFail env _ (Or.inr (Or.inl h)),
    fun h => challengedCheck_earlyFail env _ (Or.inr (Or.inr (Or.inl h))),
    fun h => challengedCheck_earlyFail env _ (Or.inr (Or.inr (Or.inr (Or.inl h)))),
    fun h => challengedCheck_earlyFail env _ (Or.inr (Or.inr (Or.inr (Or.inr h)))),
    fun h6 => ?_, fun u h7 hr => ?_⟩
  · unfold challengedCheck
    split_ifs <;> try rfl
    rw [h6]
  · unfold challengedCheck
    split_ifs <;> try rfl
    rw [h7]
    simp [hr]

/-- Witness for C4: a realm mismatch yields the generic rejection. -/
theorem claim4_witness :
    (handleChallenged env0 s1 ⟨ascii "response", payloadBadRealm⟩).1 =
      Except.error Err.saslNotAuthorized :=
  (claim4_uniform_not_authorized env0 s1 ⟨ascii "response", payloadBadRealm⟩
    payloadBadRealm (by decide) rfl).1 (by decide)

/-- Claim C6: the three non-authorization error kinds are distinct from the
uniform rejection and from each other: an empty payload yields the
malformed-request error before any base64 decoding is attempted (the result
holds for every decoder), a payload failing base64 decoding yields the
incorrect-encoding error, and a credential-lookup error is returned to the
caller verbatim. -/
theorem claim6_error_kinds_distinct (env : Env) (d : Auth) (e : XElem) :
    (e.text = [] →
      ∀ dec, handleChallenged { env with b64decode := dec } d e =
        (Except.error Err.saslMalformedRequest, d, [])) ∧
    (∀ u2, env.b64decode e.text = Except.error u2 → ¬ e.text.length = 0 →
      handleChallenged env d e = (Except.error Err.saslIncorrectEncoding, d, [])) ∧
    (∀ b err, ¬ e.text.length = 0 → env.b64decode e.text = Except.ok b →
      (parseParameters b).realm = env.domain →
      (parseParameters b).nc = ascii "00000001" →
      (parseParameters b).qop = ascii "auth" →
      ((parseParameters b).servType = [] ∨
        (parseParameters b).servType = ascii "xmpp") →
      (ascii "xmpp/").isPrefixOf (parseParameters b).digestURI = true →
      (parseParameters b).digestURI.drop 5 = env.domain →
      env.fetchUser (parseParameters b).username = Except.error err →
      handleChallenged env d e = (Except.error err, d, [])) ∧
    (Err.saslMalformedRequest ≠ Err.saslNotAuthorized ∧
      Err.saslIncorrectEncoding ≠ Err.saslNotAuthorized ∧
      Err.saslMalformedRequest ≠ Err.saslIncorrectEncoding ∧
      ∀ n, Err.storageErr n ≠ Err.saslNotAuthorized) := by
  refine ⟨fun ht dec => ?_, fun u2 hd hne => ?_,
    fun b err hne hdec h1 h2 h3 h4 hpre hdrop hf => ?_,
    by decide, by decide, by decide, fun n => by simp⟩
  · simp [handleChallenged, ht]
  · have ht2 : ¬ e.text = [] := by simpa using hne
    simp [handleChallenged, ht2, hd]
  · have ht2 : ¬ e.text = [] := by simpa using hne
    rcases h4 with h4 | h4 <;>
      simp [handleChallenged, ht2, hdec, h1, h2, h3, h4, hpre, hdrop, hf]

/-- Witness for C6: a storage error propagated verbatim, a base64 failure,
and an empty payload, on concrete sessions. -/
theorem claim6_witness :
    handleChallenged envErr s1 ⟨ascii "response", payload0⟩ =
      (Except.error (Err.storageErr 7), s1, []) ∧
    handleChallenged envBadB64 s1 ⟨ascii "response", ascii "x"⟩ =
      (Except.error Err.saslIncorrectEncoding, s1, []) ∧
    handleChallenged { env0 with b64decode := fun _ => Except.error () } s1
      ⟨ascii "response", []⟩ = (Except.error Err.saslMalformedRequest, s1, []) :=
  ⟨(claim6_error_kinds_distinct envErr s1 ⟨ascii "response", payload0⟩).2.2.1
      payload0 (Err.storageErr 7) (by decide) rfl (by decide) (by decide)
      (by decide) (by decide) (by decide) (by decide) rfl,
    (claim6_error_kinds_distinct envBadB64 s1 ⟨ascii "response", ascii "x"⟩).2.1
      () rfl (by decide),
    (claim6_error_kinds_distinct env0 s1 ⟨ascii "response", []⟩).1 rfl
      (fun _ => Except.error ())⟩

/-- Claim C8: once the authenticated flag is set, `ProcessElement` returns
success on any element whatsoever, changes no session field, and sends
nothing. -/
theorem claim8_authenticated_is_noop (env : Env) (d : Auth) (e : XElem)
    (h : d.authenticated = true) :
    processElement env d e = (Except.ok (), d, []) := by
  simp [processElement, h]

/-- Witness for C8 on the fully authenticated concrete session. -/
theorem claim8_witness :
    processElement env0 s3 ⟨ascii "auth", ascii "zz"⟩ = (Except.ok (), s3, []) :=
  claim8_authenticated_is_noop env0 s3 ⟨ascii "auth", ascii "zz"⟩ (by decide)

/-- One step of `ProcessElement` preserves the credential-origin invariant. -/
theorem inv_step (env : Env) (d : Auth) (e : XElem)
    (hJ : d.state = DState.authenticated ∨ d.authenticated = true →
      goodUsername env d) :
    (processElement env d e).2.1.state = DState.authenticated ∨
      (processElement env d e).2.1.authenticated = true →
    goodUsername env (processElement env d e).2.1 := by
  rcases processElement_cases env d e with ⟨hp, ha⟩ | ⟨out, hp, ha, hs⟩ |
    ⟨err, hp⟩ | ⟨b, u, out, hf, hp, ha, hs⟩ | ⟨hp, ha, hs⟩ <;> rw [hp]
  · exact hJ
  · intro hc
    rcases hc with hst | hfl
    · simp at hst
    · simp [ha] at hfl
  · exact hJ
  · intro hc
    exact ⟨(parseParameters b).username, u, hf, rfl⟩
  · intro hc
    obtain ⟨n, u, hfu, hn⟩ := hJ (Or.inl hs)
    exact ⟨n, u, hfu, hn⟩

/-- Every reachable session in (or past) the authenticated state carries a
username that a successful credential lookup returned. -/
theorem reachable_inv (env : Env) (d : Auth) (hr : Reachable env d) :
    d.state = DState.authenticated ∨ d.authenticated = true →
    goodUsername env d := by
  induction hr with
  | init =>
    intro hc
    rcases hc with h | h <;> simp [newDigestMD5] at h
  | step d e hd ih => exact inv_step env d e ih
  | reset d hd =>
    intro hc
    rcases hc with h | h <;> simp [reset] at h

/-- Claim C5: in every reachable session the authenticated flag is true only
if the username was returned by a successful credential lookup (hence, when
the store never returns credentials with an empty username, the session's
username is non-empty); a fresh session and a session after `Reset` have the
flag false and the username empty. -/
theorem claim5_authenticated_invariant (env : Env) (d : Auth)
    (hr : Reachable env d) :
    (d.authenticated = true →
      goodUsername env d ∧
      ((∀ n u, env.fetchUser n = Except.ok (some u) → u.username ≠ []) →
        d.username ≠ [])) ∧
    newDigestMD5.authenticated = false ∧ newDigestMD5.username = [] ∧
    (reset d).authenticated = false ∧ (reset d).username = [] := by
  refine ⟨fun hf => ?_, rfl, rfl, rfl, rfl⟩
  obtain ⟨n, u, hfu, hn⟩ := reachable_inv env d hr (Or.inr hf)
  refine ⟨⟨n, u, hfu, hn⟩, fun hstore => ?_⟩
  rw [hn]
  exact hstore n u hfu

/-- Witness for C5 on a concrete three-step authentication run. -/
theorem claim5_witness :
    goodUsername env0 s3 ∧ s3.username ≠ [] := by
  have r1 : Reachable env0 s1 :=
    Reachable.step newDigestMD5 ⟨ascii "auth", ascii "x"⟩ Reachable.init
  have r2 : Reachable env0 s2 := Reachable.step s1 ⟨ascii "response", payload0⟩ r1
  have r3 : Reachable env0 s3 := Reachable.step s2 ⟨ascii "response", ascii "x"⟩ r2
  have h := (claim5_authenticated_invariant env0 s3 r3).1 (by decide)
  refine ⟨h.1, h.2 ?_⟩
  intro n u hu
  have hu2 : aliceUser = u := by
    have hx : (Except.ok (some aliceUser) : Except Err (Option User)) =
        Except.ok (some u) := hu
    simpa using hx
  rw [← hu2]
  decide

end DigestMD5
